import Mathlib

/-!
Shallow embedding of the simulation / reverse-solving engine of
`src/simulador_otimizado.py` (tax model `CalculadoraIR.calcular_ir`,
forward simulator `SimuladorOtimizado.simular_investimento`, the
periodic-yield probe `SimuladorOtimizado.simular_rendimento_mensal`,
and the reverse solver `SimuladorOtimizado.calcular_valor_necessario`).
Python float arithmetic is modelled with exact rationals.
-/

/-- Investment modality record (`ModalidadeInvestimento.__init__`).
The engine reads only the `tem_ir` flag. -/
structure ModalidadeInvestimento where
  nome : String
  percentual_cdi : ℚ
  tem_ir : Bool
  liquidez_dias : ℕ
  risco : String
  descricao : String
deriving DecidableEq

/-- The regressive tax table `CalculadoraIR.TABELA_IR`; `none` stands for
the infinite bound of the last row. -/
def TABELA_IR : List (Option ℤ × ℚ) :=
  [(some 180, 0.225), (some 360, 0.20), (some 720, 0.175), (none, 0.15)]

/-- The `for limite_dias, aliquota in TABELA_IR: if dias <= limite_dias: ...`
loop of `calcular_ir`: first row whose (inclusive) day bound is at least
`dias`, where `none` (infinity) matches every `dias`. -/
def taxaTabela : List (Option ℤ × ℚ) → ℤ → Option ℚ
  | [], _ => none
  | (limite, aliquota) :: resto, dias =>
      match limite with
      | none => some aliquota
      | some l => if dias ≤ l then some aliquota else taxaTabela resto dias

/-- Embedding of `CalculadoraIR.calcular_ir(rendimento, dias)`: zero tax on a
non-positive gain, otherwise the first matching bracket rate times the
gain, with the `return rendimento * 0.15` fallback after the loop. -/
def calcular_ir (rendimento : ℚ) (dias : ℤ) : ℚ :=
  if rendimento ≤ 0 then 0
  else
    match taxaTabela TABELA_IR dias with
    | some aliquota => rendimento * aliquota
    | none => rendimento * 0.15

/-- Forward-mode scenario (`dados` dict consumed by `simular_investimento`). -/
structure Dados where
  valor_inicial : ℚ
  meta : ℚ
  taxa_mensal : ℚ
  aporte_mensal : ℚ
  considerar_ir : Bool
deriving DecidableEq

/-- One element of the `resultados` list built by `simular_investimento`. -/
structure Registro where
  mes : ℕ
  saldo : ℚ
  rendimento : ℚ
  ir : ℚ
  aporte : ℚ
deriving DecidableEq

/-- The body of the `while saldo < meta and meses < 600` loop of
`simular_investimento`, with `fuel = 600 - meses` making the `meses < 600`
bound structural. -/
def simLoop (d : Dados) (m : ModalidadeInvestimento) :
    ℚ → ℕ → ℕ → List Registro
  | _, _, 0 => []
  | saldo, meses, fuel + 1 =>
      if saldo < d.meta then
        let rendimento := saldo * d.taxa_mensal
        let ir := if d.considerar_ir && m.tem_ir then
            calcular_ir rendimento ((meses : ℤ) * 30) else 0
        let saldo' := saldo + rendimento - ir + d.aporte_mensal
        { mes := meses + 1, saldo := saldo', rendimento := rendimento,
          ir := ir, aporte := d.aporte_mensal } :: simLoop d m saldo' (meses + 1) fuel
      else []

/-- Embedding of `SimuladorOtimizado.simular_investimento(dados, modalidade)`. -/
def simular_investimento (d : Dados) (m : ModalidadeInvestimento) : List Registro :=
  simLoop d m d.valor_inicial 0 600

/-- The unbounded period iteration underlying the forward simulator:
`bal d m n` is the balance after `n` periods (`bal d m 0` is the initial
capital). -/
def bal (d : Dados) (m : ModalidadeInvestimento) : ℕ → ℚ
  | 0 => d.valor_inicial
  | n + 1 =>
      let s := bal d m n
      let rendimento := s * d.taxa_mensal
      let ir := if d.considerar_ir && m.tem_ir then
          calcular_ir rendimento ((n : ℤ) * 30) else 0
      s + rendimento - ir + d.aporte_mensal

/-- The tax withheld in period `n + 1` of the forward iteration. -/
def irAt (d : Dados) (m : ModalidadeInvestimento) (n : ℕ) : ℚ :=
  if d.considerar_ir && m.tem_ir then
    calcular_ir (bal d m n * d.taxa_mensal) ((n : ℤ) * 30) else 0

/-- The balance preceding record `i` of a result list: the initial capital
for the first record, the stored balance of record `i - 1` otherwise. -/
def prevSaldo (vi : ℚ) (rs : List Registro) : ℕ → ℚ
  | 0 => vi
  | j + 1 => ((rs[j]?).map Registro.saldo).getD 0

/-- Reverse-mode scenario (`dados` dict consumed by
`calcular_valor_necessario` and `simular_rendimento_mensal`). -/
structure DadosReverso where
  rendimento_desejado : ℚ
  taxa_mensal : ℚ
  prazo_meses : ℕ
  aporte_mensal : ℚ
  considerar_ir : Bool
deriving DecidableEq

/-- The `for mes in range(prazo_meses)` loop of `simular_rendimento_mensal`:
the list of net period yields, starting from balance `saldo` at month
index `mes`, for `n` further months. -/
def rendimentosMensais (d : DadosReverso) (m : ModalidadeInvestimento) :
    ℚ → ℕ → ℕ → List ℚ
  | _, _, 0 => []
  | saldo, mes, n + 1 =>
      let rendimento_bruto := saldo * d.taxa_mensal
      let ir := if d.considerar_ir && m.tem_ir then
          calcular_ir rendimento_bruto ((mes : ℤ) * 30) else 0
      let rendimento_liquido := rendimento_bruto - ir
      rendimento_liquido ::
        rendimentosMensais d m (saldo + rendimento_liquido + d.aporte_mensal) (mes + 1) n

/-- Embedding of `SimuladorOtimizado.simular_rendimento_mensal(valor_inicial, dados,
modalidade)`: mean of the last `min 3 (length)` net yields, `0` on an
empty list. -/
def simular_rendimento_mensal (valor_inicial : ℚ) (d : DadosReverso)
    (m : ModalidadeInvestimento) : ℚ :=
  let rs := rendimentosMensais d m valor_inicial 0 d.prazo_meses
  if rs.isEmpty then 0
  else
    let ultimos_meses := min 3 rs.length
    (rs.drop (rs.length - ultimos_meses)).sum / (ultimos_meses : ℚ)

/-- The `for iteracao in range(50)` bisection loop of
`calcular_valor_necessario`.  State: best candidate, best error seen
(`none` is the initial infinite best error), bracket ends; returns the final
best candidate and best error. -/
def bisectLoop (d : DadosReverso) (m : ModalidadeInvestimento) :
    ℚ → Option ℚ → ℚ → ℚ → ℕ → ℚ × Option ℚ
  | melhor, menor, _, _, 0 => (melhor, menor)
  | melhor, menor, vmin, vmax, fuel + 1 =>
      let valor_teste := (vmin + vmax) / 2
      let rendimento_simulado := simular_rendimento_mensal valor_teste d m
      let diferenca := |rendimento_simulado - d.rendimento_desejado|
      let p : ℚ × Option ℚ :=
        match menor with
        | none => (valor_teste, some diferenca)
        | some md => if diferenca < md then (valor_teste, some diferenca) else (melhor, menor)
      if diferenca < 1 ∨ |vmax - vmin| < 1 then p
      else if rendimento_simulado < d.rendimento_desejado then
        bisectLoop d m p.1 p.2 valor_teste vmax fuel
      else
        bisectLoop d m p.1 p.2 vmin valor_teste fuel

/-- The tax-discount factor `fator_ir` of `calcular_valor_necessario`. -/
def fator_ir (d : DadosReverso) (m : ModalidadeInvestimento) : ℚ :=
  if d.considerar_ir && m.tem_ir then
    1 - calcular_ir 1 ((d.prazo_meses : ℤ) * 30)
  else 1

/-- The net rate `taxa_liquida` of `calcular_valor_necessario`. -/
def taxa_liquida (d : DadosReverso) (m : ModalidadeInvestimento) : ℚ :=
  d.taxa_mensal * fator_ir d m

/-- The seed estimate `valor_inicial_estimado` of `calcular_valor_necessario`
(after the contribution refinement branch). -/
def valor_inicial_estimado (d : DadosReverso) (m : ModalidadeInvestimento) : ℚ :=
  let tl := taxa_liquida d m
  let e0 := d.rendimento_desejado / tl
  if d.aporte_mensal > 0 then
    if tl > 0 then
      let valor_futuro_aportes := d.aporte_mensal * (((1 + tl) ^ d.prazo_meses - 1) / tl)
      let rendimento_aportes_ultimo_mes := valor_futuro_aportes * tl / (d.prazo_meses : ℚ)
      let rendimento_necessario_capital := d.rendimento_desejado - rendimento_aportes_ultimo_mes
      max 0 (rendimento_necessario_capital / tl)
    else e0
  else e0

/-- The final state (best candidate, best error) of the bisection search of
`calcular_valor_necessario`, run from the seeded initial state. -/
def bisectResult (d : DadosReverso) (m : ModalidadeInvestimento) : ℚ × Option ℚ :=
  let vie := valor_inicial_estimado d m
  let valor_max := max (vie * 3) (d.rendimento_desejado * 100)
  bisectLoop d m vie none 0 valor_max 50

/-- Result record of the reverse solver. -/
structure ResultadoReverso where
  valor_inicial_necessario : ℚ
  rendimento_mensal_previsto : ℚ
  valor_total_investido : ℚ
  diferenca_rendimento : ℚ
deriving DecidableEq

/-- Message of the `ValueError` guard on a non-positive net rate. -/
def errTaxa : String := "Taxa liquida deve ser positiva"

/-- Message of the `ValueError` raised when the search did not converge
(the `InfeasibleError` of the spec). -/
def errInfeasible : String :=
  "Nao foi possivel encontrar valor com precisao adequada. Tente ajustar os parametros."

/-- Embedding of `SimuladorOtimizado.calcular_valor_necessario(dados, modalidade)`.
A raised `ValueError` is modelled as `Except.error` with its message.
The `none` case of the best error corresponds to a still-infinite
`menor_diferenca`, for which the Python comparison `inf > x` holds. -/
def calcular_valor_necessario (d : DadosReverso) (m : ModalidadeInvestimento) :
    Except String ResultadoReverso :=
  if taxa_liquida d m ≤ 0 then .error errTaxa
  else
    match (bisectResult d m).2 with
    | none => .error errInfeasible
    | some menor_diferenca =>
        if menor_diferenca > d.rendimento_desejado * 0.1 then .error errInfeasible
        else .ok
          { valor_inicial_necessario := (bisectResult d m).1,
            rendimento_mensal_previsto :=
              simular_rendimento_mensal (bisectResult d m).1 d m,
            valor_total_investido :=
              (bisectResult d m).1 + d.aporte_mensal * (d.prazo_meses : ℚ),
            diferenca_rendimento := menor_diferenca }

/-- Boolean view of a raised error. -/
def isErr {α : Type} : Except String α → Bool
  | .error _ => true
  | .ok _ => false

/-- Optional view of a success value. -/
def okVal {α : Type} : Except String α → Option α
  | .error _ => none
  | .ok a => some a

/-- Instrumented variant of the bisection loop: the same state as
`bisectLoop`, together with the number of `simular_rendimento_mensal`
evaluations the loop performs. -/
def bisectLoopCount (d : DadosReverso) (m : ModalidadeInvestimento) :
    ℚ → Option ℚ → ℚ → ℚ → ℕ → (ℚ × Option ℚ) × ℕ
  | melhor, menor, _, _, 0 => ((melhor, menor), 0)
  | melhor, menor, vmin, vmax, fuel + 1 =>
      let valor_teste := (vmin + vmax) / 2
      let rendimento_simulado := simular_rendimento_mensal valor_teste d m
      let diferenca := |rendimento_simulado - d.rendimento_desejado|
      let p : ℚ × Option ℚ :=
        match menor with
        | none => (valor_teste, some diferenca)
        | some md => if diferenca < md then (valor_teste, some diferenca) else (melhor, menor)
      if diferenca < 1 ∨ |vmax - vmin| < 1 then (p, 1)
      else if rendimento_simulado < d.rendimento_desejado then
        let r := bisectLoopCount d m p.1 p.2 valor_teste vmax fuel
        (r.1, r.2 + 1)
      else
        let r := bisectLoopCount d m p.1 p.2 vmin valor_teste fuel
        (r.1, r.2 + 1)

/-- Total number of `simular_rendimento_mensal` evaluations performed by one
call of `calcular_valor_necessario`: its bisection iterations, plus the one
extra evaluation made while building the success record. -/
def probesUsed (d : DadosReverso) (m : ModalidadeInvestimento) : ℕ :=
  if taxa_liquida d m ≤ 0 then 0
  else
    let vie := valor_inicial_estimado d m
    let valor_max := max (vie * 3) (d.rendimento_desejado * 100)
    let r := bisectLoopCount d m vie none 0 valor_max 50
    r.2 +
      match r.1.2 with
      | none => 0
      | some menor_diferenca =>
          if menor_diferenca > d.rendimento_desejado * 0.1 then 0 else 1

/-- Catalog entry `CDI 100%` (taxable). -/
def modalidadeCDI100 : ModalidadeInvestimento :=
  { nome := "CDI 100%", percentual_cdi := 100, tem_ir := true,
    liquidez_dias := 0, risco := "Baixo", descricao := "Renda fixa tradicional" }

/-- Catalog entry `Poupanca` (tax-free). -/
def modalidadePoupanca : ModalidadeInvestimento :=
  { nome := "Poupanca", percentual_cdi := 70, tem_ir := false,
    liquidez_dias := 0, risco := "Baixo", descricao := "Caderneta tradicional" }

/-- Spec-side bracket rate: the rate of the first bracket of the reference
table whose inclusive day bound is at least `dias` (15% past the last
finite bound). -/
def aliquotaIR (dias : ℤ) : ℚ :=
  if dias ≤ 180 then 0.225
  else if dias ≤ 360 then 0.20
  else if dias ≤ 720 then 0.175
  else 0.15

/-- Concrete forward scenario used by witnesses: capital 1, target 2,
periodic rate 100%, no contribution, no tax. -/
def dadosForwardTeste : Dados :=
  { valor_inicial := 1, meta := 2, taxa_mensal := 1, aporte_mensal := 0,
    considerar_ir := false }

/-- Concrete forward scenario whose initial capital already meets the
target. -/
def dadosMetaAtingida : Dados :=
  { valor_inicial := 5, meta := 3, taxa_mensal := 1, aporte_mensal := 0,
    considerar_ir := false }

/-- The single record produced by `dadosForwardTeste`. -/
def registroTeste : Registro :=
  { mes := 1, saldo := 2, rendimento := 1, ir := 0, aporte := 0 }


/-- Update of the (best candidate, best error) pair performed inside one
bisection iteration. -/
def bisectUpd (melhor : ℚ) (menor : Option ℚ) (vt dif : ℚ) : ℚ × Option ℚ :=
  match menor with
  | none => (vt, some dif)
  | some md => if dif < md then (vt, some dif) else (melhor, menor)

/-- Spec-level probe trajectory: the balance of the fixed-horizon probe
before period `k + 1`, starting from capital `c`. -/
def probeSaldo (d : DadosReverso) (m : ModalidadeInvestimento) (c : ℚ) : ℕ → ℚ
  | 0 => c
  | k + 1 =>
      let s := probeSaldo d m c k
      let rb := s * d.taxa_mensal
      let ir := if d.considerar_ir && m.tem_ir then
          calcular_ir rb ((k : ℤ) * 30) else 0
      s + (rb - ir) + d.aporte_mensal

/-- Net (post-tax) yield of probe period `k + 1`: the gross yield accrued
on the balance before the period, taxed at `k * 30` elapsed days when
applicable. -/
def probeNet (d : DadosReverso) (m : ModalidadeInvestimento) (c : ℚ) (k : ℕ) : ℚ :=
  probeSaldo d m c k * d.taxa_mensal -
    (if d.considerar_ir && m.tem_ir then
      calcular_ir (probeSaldo d m c k * d.taxa_mensal) ((k : ℤ) * 30) else 0)

/-- Invariant of the bisection state: whenever a best error is recorded, it
is the absolute difference between the probe at the best candidate and the
desired yield. -/
def menorInv (d : DadosReverso) (m : ModalidadeInvestimento) (p : ℚ × Option ℚ) : Prop :=
  ∀ md, p.2 = some md →
    md = |simular_rendimento_mensal p.1 d m - d.rendimento_desejado|

/-- Concrete reverse scenario used by witnesses: desired yield 100,
periodic rate 100%, horizon 1 month, no contribution, no tax. -/
def dadosReversoTeste : DadosReverso :=
  { rendimento_desejado := 100, taxa_mensal := 1, prazo_meses := 1,
    aporte_mensal := 0, considerar_ir := false }

/-- The record returned by the reverse solver on `dadosReversoTeste`. -/
def resultadoTeste : ResultadoReverso :=
  { valor_inicial_necessario := 25625 / 256,
    rendimento_mensal_previsto := 25625 / 256,
    valor_total_investido := 25625 / 256,
    diferenca_rendimento := 25 / 256 }

/-- Reverse scenario on which the bisection loop runs all 50 iterations and
the solver still succeeds, so the probe is evaluated 51 times. -/
def dadosContraexemplo : DadosReverso :=
  { rendimento_desejado := 2 ^ 50, taxa_mensal := 1, prazo_meses := 3,
    aporte_mensal := 4 / 5 * 2 ^ 50, considerar_ir := false }

attribute [local semireducible] Rat.add Rat.mul Rat.inv Rat.sub Rat.ofScientific

/-- Closed form of the tax model: zero on a non-positive gain, otherwise the
gain times the bracket rate selected by the holding period. -/
lemma calcular_ir_eq (g : ℚ) (dias : ℤ) :
    calcular_ir g dias = if g ≤ 0 then 0 else g * aliquotaIR dias := by
  by_cases hg : g ≤ 0 <;>
    by_cases h1 : dias ≤ 180 <;>
      by_cases h2 : dias ≤ 360 <;>
        by_cases h3 : dias ≤ 720 <;>
          simp [calcular_ir, TABELA_IR, taxaTabela, aliquotaIR, hg, h1, h2, h3]

/-- The bracket rate is always between 15% and 22.5%. -/
lemma aliquotaIR_bounds (dias : ℤ) :
    0.15 ≤ aliquotaIR dias ∧ aliquotaIR dias ≤ 0.225 := by
  unfold aliquotaIR
  split_ifs <;> norm_num

/-- The bracket rate is non-increasing in the holding period. -/
lemma aliquotaIR_antitone {d1 d2 : ℤ} (h : d1 ≤ d2) :
    aliquotaIR d2 ≤ aliquotaIR d1 := by
  unfold aliquotaIR
  split_ifs <;> first | omega | norm_num

/-- C3: the tax model returns 0 on a non-positive gain; on a positive gain
it returns the gain times the rate of the first bracket whose inclusive day
bound is at least the elapsed-day count (22.5% up to 180 days, 20% up to
360, 17.5% up to 720, else 15%); the bracket boundary falls between day 180
and day 181: tax(1000, 180) = 225 while tax(1000, 181) = 200. -/
theorem tax_table_correct (g : ℚ) (dias : ℤ) :
    (g ≤ 0 → calcular_ir g dias = 0) ∧
    (0 < g → calcular_ir g dias = g * aliquotaIR dias) ∧
    calcular_ir 1000 180 = 225 ∧ calcular_ir 1000 181 = 200 :=
  ⟨fun h => by rw [calcular_ir_eq, if_pos h],
   fun h => by rw [calcular_ir_eq, if_neg (not_le.2 h)],
   by decide, by decide⟩

/-- Witness for `tax_table_correct` at concrete inputs. -/
theorem tax_table_correct_witness :
    calcular_ir (-1) 5 = 0 ∧ calcular_ir 2 200 = 2 * aliquotaIR 200 ∧
    calcular_ir 1000 180 = 225 ∧ calcular_ir 1000 181 = 200 :=
  ⟨(tax_table_correct (-1) 5).1 (by norm_num),
   (tax_table_correct 2 200).2.1 (by norm_num),
   (tax_table_correct 1000 180).2.2.1,
   (tax_table_correct 1000 181).2.2.2⟩

/-- C8: for a fixed gain the withheld tax is non-increasing in the holding
period: `calcular_ir g d2 ≤ calcular_ir g d1` whenever `0 ≤ d1 ≤ d2`. -/
theorem tax_monotone_days (g : ℚ) (d1 d2 : ℤ) (h0 : 0 ≤ d1) (h12 : d1 ≤ d2) :
    calcular_ir g d2 ≤ calcular_ir g d1 := by
  rw [calcular_ir_eq, calcular_ir_eq]
  by_cases hg : g ≤ 0
  · simp [hg]
  · have hg' : 0 < g := not_le.1 hg
    rw [if_neg hg, if_neg hg]
    exact mul_le_mul_of_nonneg_left (aliquotaIR_antitone h12) hg'.le

/-- Witness for `tax_monotone_days` at gain 10 and days 100 ≤ 400. -/
theorem tax_monotone_days_witness :
    (0 : ℤ) ≤ 100 ∧ (100 : ℤ) ≤ 400 ∧ calcular_ir 10 400 ≤ calcular_ir 10 100 :=
  ⟨by norm_num, by norm_num, tax_monotone_days 10 100 400 (by norm_num) (by norm_num)⟩

/-- C10: on any positive gain and any integer day count (negative included)
the withheld tax lies between 15% and 22.5% of the gain; it is strictly
positive and strictly below the gain, so the net yield of a period with a
positive gross yield is positive. -/
theorem tax_bounds_positive_gain (g : ℚ) (dias : ℤ) (hg : 0 < g) :
    0.15 * g ≤ calcular_ir g dias ∧ calcular_ir g dias ≤ 0.225 * g ∧
    0 < calcular_ir g dias ∧ calcular_ir g dias < g ∧
    0 < g - calcular_ir g dias := by
  rw [calcular_ir_eq, if_neg (not_le.2 hg)]
  obtain ⟨hlo, hhi⟩ := aliquotaIR_bounds dias
  refine ⟨by nlinarith, by nlinarith, by nlinarith, by nlinarith, by nlinarith⟩

/-- Witness for `tax_bounds_positive_gain` at gain 8 and day count -4. -/
theorem tax_bounds_positive_gain_witness :
    (0 : ℚ) < 8 ∧
    (0.15 * 8 ≤ calcular_ir 8 (-4) ∧ calcular_ir 8 (-4) ≤ 0.225 * 8 ∧
      0 < calcular_ir 8 (-4) ∧ calcular_ir 8 (-4) < 8 ∧
      0 < 8 - calcular_ir 8 (-4)) :=
  ⟨by norm_num, tax_bounds_positive_gain 8 (-4) (by norm_num)⟩

/-- The forward loop never produces more records than its fuel allows. -/
lemma simLoop_length_le (d : Dados) (m : ModalidadeInvestimento) :
    ∀ (fuel : ℕ) (saldo : ℚ) (meses : ℕ),
      (simLoop d m saldo meses fuel).length ≤ fuel := by
  intro fuel
  induction fuel with
  | zero => intro s n; simp [simLoop]
  | succ fuel ih =>
      intro s n
      rw [simLoop]
      split
      · simpa using Nat.succ_le_succ (ih _ _)
      · simp

/-- One-step unfolding of `bal`. -/
lemma bal_succ (d : Dados) (m : ModalidadeInvestimento) (n : ℕ) :
    bal d m (n + 1) = bal d m n + bal d m n * d.taxa_mensal -
      (if d.considerar_ir && m.tem_ir then
        calcular_ir (bal d m n * d.taxa_mensal) ((n : ℤ) * 30) else 0) +
      d.aporte_mensal := by
  rw [bal]

/-- Unfolding of the forward loop when the loop condition holds. -/
lemma simLoop_cons (d : Dados) (m : ModalidadeInvestimento) (saldo : ℚ)
    (meses fuel : ℕ) (h : saldo < d.meta) :
    simLoop d m saldo meses (fuel + 1) =
      { mes := meses + 1,
        saldo := saldo + saldo * d.taxa_mensal -
          (if d.considerar_ir && m.tem_ir then
            calcular_ir (saldo * d.taxa_mensal) ((meses : ℤ) * 30) else 0) +
          d.aporte_mensal,
        rendimento := saldo * d.taxa_mensal,
        ir := if d.considerar_ir && m.tem_ir then
          calcular_ir (saldo * d.taxa_mensal) ((meses : ℤ) * 30) else 0,
        aporte := d.aporte_mensal } ::
      simLoop d m (saldo + saldo * d.taxa_mensal -
          (if d.considerar_ir && m.tem_ir then
            calcular_ir (saldo * d.taxa_mensal) ((meses : ℤ) * 30) else 0) +
          d.aporte_mensal) (meses + 1) fuel := by
  rw [simLoop, if_pos h]

/-- Unfolding of the forward loop when the loop condition fails. -/
lemma simLoop_nil (d : Dados) (m : ModalidadeInvestimento) (saldo : ℚ)
    (meses fuel : ℕ) (h : ¬saldo < d.meta) :
    simLoop d m saldo meses (fuel + 1) = [] := by
  rw [simLoop, if_neg h]

/-- Every record of the forward loop, run from the iteration balance at
month `meses`, stores the fields dictated by the iteration `bal`. -/
lemma simLoop_get (d : Dados) (m : ModalidadeInvestimento) :
    ∀ (fuel meses : ℕ) (i : ℕ) (r : Registro),
      (simLoop d m (bal d m meses) meses fuel)[i]? = some r →
      r.mes = meses + i + 1 ∧ r.saldo = bal d m (meses + i + 1) ∧
      r.rendimento = bal d m (meses + i) * d.taxa_mensal ∧
      r.ir = irAt d m (meses + i) ∧ r.aporte = d.aporte_mensal := by
  intro fuel
  induction fuel with
  | zero => intro meses i r h; simp [simLoop] at h
  | succ fuel ih =>
      intro meses i r h
      by_cases hs : bal d m meses < d.meta
      · rw [simLoop_cons d m _ meses fuel hs, ← bal_succ] at h
        cases i with
        | zero =>
            rw [List.getElem?_cons_zero] at h
            cases h
            exact ⟨rfl, by rw [bal_succ], rfl, by simp [irAt], rfl⟩
        | succ j =>
            rw [List.getElem?_cons_succ] at h
            obtain ⟨h1, h2, h3, h4, h5⟩ := ih (meses + 1) j r h
            refine ⟨by omega, ?_, ?_, ?_, h5⟩
            · rw [h2]; congr 1; omega
            · rw [h3]; congr 2; omega
            · rw [h4]; congr 1; omega
      · rw [simLoop_nil d m _ meses fuel hs] at h
        simp at h

/-- Stop characterization of the forward loop: the loop condition held
before every produced record, and the loop ended either by exhausting its
fuel or by reaching the target. -/
lemma simLoop_stop (d : Dados) (m : ModalidadeInvestimento) :
    ∀ (fuel meses : ℕ),
      (∀ j, j < (simLoop d m (bal d m meses) meses fuel).length →
          bal d m (meses + j) < d.meta) ∧
      ((simLoop d m (bal d m meses) meses fuel).length = fuel ∨
        d.meta ≤ bal d m (meses + (simLoop d m (bal d m meses) meses fuel).length)) := by
  intro fuel
  induction fuel with
  | zero => intro meses; simp [simLoop]
  | succ fuel ih =>
      intro meses
      by_cases hs : bal d m meses < d.meta
      · rw [simLoop_cons d m _ meses fuel hs, ← bal_succ]
        obtain ⟨ih1, ih2⟩ := ih (meses + 1)
        constructor
        · intro j hj
          cases j with
          | zero => simpa using hs
          | succ j' =>
              have hj' : j' < (simLoop d m (bal d m (meses + 1)) (meses + 1) fuel).length := by
                simpa using hj
              have := ih1 j' hj'
              have harith : meses + 1 + j' = meses + (j' + 1) := by omega
              rwa [harith] at this
        · rcases ih2 with h | h
          · left; simp [h]
          · right
            have harith : meses + 1 + (simLoop d m (bal d m (meses + 1)) (meses + 1) fuel).length
                = meses + ((simLoop d m (bal d m (meses + 1)) (meses + 1) fuel).length + 1) := by
              omega
            rw [harith] at h
            simpa using h
      · rw [simLoop_nil d m _ meses fuel hs]
        constructor
        · intro j hj; simp at hj
        · right; simpa using not_lt.1 hs

/-- C1: under the validated scenario ranges and for every modality, each
record of the forward simulator stores `contribution = monthlyContribution`
and `grossYield = previousBalance * periodicRate`, and its balance equals
the previous balance plus the stored gross yield, minus the stored withheld
tax, plus the stored contribution (the previous balance being the initial
capital for the first record). -/
theorem balance_recurrence (d : Dados) (m : ModalidadeInvestimento)
    (h1 : 0 < d.valor_inicial) (h2 : 0 ≤ d.aporte_mensal)
    (h3 : d.valor_inicial < d.meta) (h4 : 0 < d.taxa_mensal) :
    ∀ (i : ℕ) (r : Registro), (simular_investimento d m)[i]? = some r →
      r.saldo = prevSaldo d.valor_inicial (simular_investimento d m) i +
        r.rendimento - r.ir + r.aporte ∧
      r.rendimento =
        prevSaldo d.valor_inicial (simular_investimento d m) i * d.taxa_mensal ∧
      r.aporte = d.aporte_mensal := by
  intro i r h
  have hsim : simular_investimento d m = simLoop d m (bal d m 0) 0 600 := rfl
  rw [hsim] at h
  obtain ⟨hmes, hsaldo, hrend, hir, hap⟩ := simLoop_get d m 600 0 i r h
  simp only [Nat.zero_add] at hsaldo hrend hir
  have hprev : prevSaldo d.valor_inicial (simular_investimento d m) i = bal d m i := by
    cases i with
    | zero => rfl
    | succ j =>
        have hij : j + 1 < (simLoop d m (bal d m 0) 0 600).length := by
          obtain ⟨hlt, -⟩ := List.getElem?_eq_some.1 h
          exact hlt
        have hj : j < (simLoop d m (bal d m 0) 0 600).length := by omega
        have hgetj : (simLoop d m (bal d m 0) 0 600)[j]? =
            some ((simLoop d m (bal d m 0) 0 600).get ⟨j, hj⟩) := by
          simp [List.getElem?_eq_getElem hj]
        obtain ⟨-, hsj, -, -, -⟩ := simLoop_get d m 600 0 j _ hgetj
        rw [prevSaldo, hsim, hgetj]
        simpa using hsj
  refine ⟨?_, by rw [hrend, hprev], hap⟩
  rw [hsaldo, hprev, hrend, hir, hap, bal_succ, irAt]

/-- Witness for `balance_recurrence` on the concrete scenario
`dadosForwardTeste` and its first record. -/
theorem balance_recurrence_witness :
    ((0 : ℚ) < dadosForwardTeste.valor_inicial ∧
      (0 : ℚ) ≤ dadosForwardTeste.aporte_mensal ∧
      dadosForwardTeste.valor_inicial < dadosForwardTeste.meta ∧
      (0 : ℚ) < dadosForwardTeste.taxa_mensal ∧
      (simular_investimento dadosForwardTeste modalidadePoupanca)[0]? = some registroTeste) ∧
    (registroTeste.saldo =
        prevSaldo dadosForwardTeste.valor_inicial
          (simular_investimento dadosForwardTeste modalidadePoupanca) 0 +
          registroTeste.rendimento - registroTeste.ir + registroTeste.aporte ∧
      registroTeste.rendimento =
        prevSaldo dadosForwardTeste.valor_inicial
          (simular_investimento dadosForwardTeste modalidadePoupanca) 0 *
          dadosForwardTeste.taxa_mensal ∧
      registroTeste.aporte = dadosForwardTeste.aporte_mensal) :=
  ⟨⟨by decide, by decide, by decide, by decide, by decide⟩,
    balance_recurrence dadosForwardTeste modalidadePoupanca
      (by decide) (by decide) (by decide) (by decide) 0 registroTeste (by decide)⟩

/-- C2: under the validated scenario ranges the forward simulator returns
between 1 and 600 records, the balance of each record is the corresponding
iteration balance, every balance before the last record is below the
target, the run ends at 600 records or with the target reached, and
whenever the iteration reaches the target within 600 periods the returned
length is at most the first such period count and the final balance meets
the target. -/
theorem stop_condition_minimality (d : Dados) (m : ModalidadeInvestimento)
    (h1 : 0 < d.valor_inicial) (h2 : d.valor_inicial < d.meta)
    (h3 : 0 ≤ d.aporte_mensal) :
    (1 ≤ (simular_investimento d m).length ∧
      (simular_investimento d m).length ≤ 600) ∧
    (∀ (i : ℕ) (r : Registro), (simular_investimento d m)[i]? = some r →
        r.saldo = bal d m (i + 1)) ∧
    (∀ k, 1 ≤ k → k < (simular_investimento d m).length → bal d m k < d.meta) ∧
    ((simular_investimento d m).length = 600 ∨
      d.meta ≤ bal d m (simular_investimento d m).length) ∧
    (∀ k, 1 ≤ k → k ≤ 600 → d.meta ≤ bal d m k →
        (simular_investimento d m).length ≤ k ∧
        d.meta ≤ bal d m (simular_investimento d m).length) := by
  have hsim : simular_investimento d m = simLoop d m (bal d m 0) 0 600 := rfl
  obtain ⟨hcond, hend⟩ := simLoop_stop d m 600 0
  simp only [Nat.zero_add] at hcond hend
  rw [hsim]
  have hlen : (simLoop d m (bal d m 0) 0 600).length ≤ 600 :=
    simLoop_length_le d m 600 _ 0
  have hone : 1 ≤ (simLoop d m (bal d m 0) 0 600).length := by
    by_contra hno
    have h0 : (simLoop d m (bal d m 0) 0 600).length = 0 := by omega
    rcases hend with h | h
    · omega
    · rw [h0] at h
      exact absurd h (not_le.2 h2)
  have hmin : ∀ k, 1 ≤ k → k ≤ 600 → d.meta ≤ bal d m k →
      (simLoop d m (bal d m 0) 0 600).length ≤ k ∧
      d.meta ≤ bal d m (simLoop d m (bal d m 0) 0 600).length := by
    intro k hk1 hk600 hbk
    have hlk : (simLoop d m (bal d m 0) 0 600).length ≤ k := by
      by_contra hno
      exact absurd (hcond k (not_le.1 hno)) (not_lt.2 hbk)
    refine ⟨hlk, ?_⟩
    rcases hend with h | h
    · have : k = 600 := by omega
      rw [h]
      rw [this] at hbk
      exact hbk
    · exact h
  refine ⟨⟨hone, hlen⟩, ?_, fun k _ hk => hcond k hk, hend, hmin⟩
  intro i r h
  obtain ⟨-, hsaldo, -, -, -⟩ := simLoop_get d m 600 0 i r h
  simpa using hsaldo

/-- Witness for `stop_condition_minimality` on `dadosForwardTeste`, whose
iteration reaches the target at period 1. -/
theorem stop_condition_minimality_witness :
    ((0 : ℚ) < dadosForwardTeste.valor_inicial ∧
      dadosForwardTeste.valor_inicial < dadosForwardTeste.meta ∧
      (0 : ℚ) ≤ dadosForwardTeste.aporte_mensal ∧
      dadosForwardTeste.meta ≤ bal dadosForwardTeste modalidadePoupanca 1) ∧
    (1 ≤ (simular_investimento dadosForwardTeste modalidadePoupanca).length ∧
      (simular_investimento dadosForwardTeste modalidadePoupanca).length ≤ 1 ∧
      dadosForwardTeste.meta ≤ bal dadosForwardTeste modalidadePoupanca
        (simular_investimento dadosForwardTeste modalidadePoupanca).length) :=
  ⟨⟨by decide, by decide, by decide, by decide⟩,
    (stop_condition_minimality dadosForwardTeste modalidadePoupanca
      (by decide) (by decide) (by decide)).1.1,
    ((stop_condition_minimality dadosForwardTeste modalidadePoupanca
      (by decide) (by decide) (by decide)).2.2.2.2 1 (le_refl 1) (by norm_num)
      (by decide)).1,
    ((stop_condition_minimality dadosForwardTeste modalidadePoupanca
      (by decide) (by decide) (by decide)).2.2.2.2 1 (le_refl 1) (by norm_num)
      (by decide)).2⟩

/-- C9: invoked with an initial capital already at or above the target, the
forward simulator returns the empty sequence, because the stop condition is
tested before the first period is simulated. -/
theorem sim_empty_of_target_reached (d : Dados) (m : ModalidadeInvestimento)
    (h : d.meta ≤ d.valor_inicial) :
    simular_investimento d m = [] :=
  simLoop_nil d m d.valor_inicial 0 599 (not_lt.2 h)

/-- Witness for `sim_empty_of_target_reached` on `dadosMetaAtingida`. -/
theorem sim_empty_of_target_reached_witness :
    dadosMetaAtingida.meta ≤ dadosMetaAtingida.valor_inicial ∧
    simular_investimento dadosMetaAtingida modalidadePoupanca = [] :=
  ⟨by decide,
    sim_empty_of_target_reached dadosMetaAtingida modalidadePoupanca (by decide)⟩

/-- One-step unfolding of the month loop of the probe. -/
lemma rendimentosMensais_succ (d : DadosReverso) (m : ModalidadeInvestimento)
    (saldo : ℚ) (mes n : ℕ) :
    rendimentosMensais d m saldo mes (n + 1) =
      (saldo * d.taxa_mensal -
        (if d.considerar_ir && m.tem_ir then
          calcular_ir (saldo * d.taxa_mensal) ((mes : ℤ) * 30) else 0)) ::
      rendimentosMensais d m
        (saldo + (saldo * d.taxa_mensal -
          (if d.considerar_ir && m.tem_ir then
            calcular_ir (saldo * d.taxa_mensal) ((mes : ℤ) * 30) else 0)) +
          d.aporte_mensal) (mes + 1) n := by
  rw [rendimentosMensais]

/-- One-step unfolding of the probe trajectory. -/
lemma probeSaldo_succ (d : DadosReverso) (m : ModalidadeInvestimento)
    (c : ℚ) (k : ℕ) :
    probeSaldo d m c (k + 1) =
      probeSaldo d m c k + probeNet d m c k + d.aporte_mensal := rfl

/-- The month loop of the probe always runs for exactly its fuel. -/
lemma rendimentosMensais_length (d : DadosReverso) (m : ModalidadeInvestimento) :
    ∀ (n : ℕ) (saldo : ℚ) (mes : ℕ),
      (rendimentosMensais d m saldo mes n).length = n := by
  intro n
  induction n with
  | zero => intro s k; simp [rendimentosMensais]
  | succ n ih => intro s k; rw [rendimentosMensais_succ]; simp [ih]

/-- The net-yield list recorded by the probe is the sequence of the
spec-level per-period net yields. -/
lemma rendimentosMensais_map (d : DadosReverso) (m : ModalidadeInvestimento)
    (c : ℚ) : ∀ (n k : ℕ),
      rendimentosMensais d m (probeSaldo d m c k) k n =
        (List.range n).map (fun j => probeNet d m c (k + j)) := by
  intro n
  induction n with
  | zero => intro k; simp [rendimentosMensais]
  | succ n ih =>
      intro k
      rw [rendimentosMensais_succ]
      have hhead : probeSaldo d m c k * d.taxa_mensal -
          (if d.considerar_ir && m.tem_ir then
            calcular_ir (probeSaldo d m c k * d.taxa_mensal) ((k : ℤ) * 30) else 0) =
          probeNet d m c k := rfl
      rw [hhead, ← probeSaldo_succ, ih (k + 1), List.range_succ_eq_map,
        List.map_cons, List.map_map]
      congr 1
      refine List.map_congr_left ?_
      intro a _
      simp only [Function.comp_apply]
      congr 1
      omega

/-- Evaluation form of `simular_rendimento_mensal`. -/
lemma simular_rendimento_mensal_eq (c : ℚ) (d : DadosReverso)
    (m : ModalidadeInvestimento) :
    simular_rendimento_mensal c d m =
      if (rendimentosMensais d m c 0 d.prazo_meses).isEmpty then 0
      else ((rendimentosMensais d m c 0 d.prazo_meses).drop
          ((rendimentosMensais d m c 0 d.prazo_meses).length -
            min 3 (rendimentosMensais d m c 0 d.prazo_meses).length)).sum /
        ((min 3 (rendimentosMensais d m c 0 d.prazo_meses).length : ℕ) : ℚ) := rfl

/-- C4: for every capital and every reverse scenario with a horizon of 1 to
600 months, the probe records exactly `horizonMonths` net period yields
(never stopping early at any target), the yields are those of the
per-period recurrence (period `k + 1` taxed at `k * 30` elapsed days when
applicable), and the probe returns the arithmetic mean of the last
`min 3 horizonMonths` of them. -/
theorem probe_fixed_horizon (c : ℚ) (d : DadosReverso)
    (m : ModalidadeInvestimento) (hc : 0 ≤ c) (h1 : 1 ≤ d.prazo_meses)
    (h2 : d.prazo_meses ≤ 600) :
    (rendimentosMensais d m c 0 d.prazo_meses).length = d.prazo_meses ∧
    rendimentosMensais d m c 0 d.prazo_meses =
      (List.range d.prazo_meses).map (probeNet d m c) ∧
    simular_rendimento_mensal c d m =
      (((List.range d.prazo_meses).map (probeNet d m c)).drop
          (d.prazo_meses - min 3 d.prazo_meses)).sum /
        ((min 3 d.prazo_meses : ℕ) : ℚ) := by
  have heq : rendimentosMensais d m c 0 d.prazo_meses =
      (List.range d.prazo_meses).map (probeNet d m c) := by
    have h := rendimentosMensais_map d m c d.prazo_meses 0
    have h0 : probeSaldo d m c 0 = c := rfl
    rw [h0] at h
    simpa using h
  have hlen : (rendimentosMensais d m c 0 d.prazo_meses).length = d.prazo_meses :=
    rendimentosMensais_length d m d.prazo_meses c 0
  refine ⟨hlen, heq, ?_⟩
  rw [simular_rendimento_mensal_eq, hlen]
  have hne : (rendimentosMensais d m c 0 d.prazo_meses).isEmpty = false := by
    rw [List.isEmpty_eq_false_iff_exists_mem]
    have : 0 < (rendimentosMensais d m c 0 d.prazo_meses).length := by omega
    exact List.exists_mem_of_length_pos this
  rw [hne, heq]
  simp

/-- Witness for `probe_fixed_horizon` at capital 1 on `dadosReversoTeste`. -/
theorem probe_fixed_horizon_witness :
    ((0 : ℚ) ≤ 1 ∧ 1 ≤ dadosReversoTeste.prazo_meses ∧
      dadosReversoTeste.prazo_meses ≤ 600) ∧
    ((rendimentosMensais dadosReversoTeste modalidadePoupanca 1 0
        dadosReversoTeste.prazo_meses).length = dadosReversoTeste.prazo_meses ∧
      rendimentosMensais dadosReversoTeste modalidadePoupanca 1 0
          dadosReversoTeste.prazo_meses =
        (List.range dadosReversoTeste.prazo_meses).map
          (probeNet dadosReversoTeste modalidadePoupanca 1) ∧
      simular_rendimento_mensal 1 dadosReversoTeste modalidadePoupanca =
        (((List.range dadosReversoTeste.prazo_meses).map
            (probeNet dadosReversoTeste modalidadePoupanca 1)).drop
          (dadosReversoTeste.prazo_meses - min 3 dadosReversoTeste.prazo_meses)).sum /
        ((min 3 dadosReversoTeste.prazo_meses : ℕ) : ℚ)) :=
  ⟨⟨by norm_num, by decide, by decide⟩,
    probe_fixed_horizon 1 dadosReversoTeste modalidadePoupanca
      (by norm_num) (by decide) (by decide)⟩

/-- Evaluation form of `bisectResult`. -/
lemma bisectResult_eq (d : DadosReverso) (m : ModalidadeInvestimento) :
    bisectResult d m = bisectLoop d m (valor_inicial_estimado d m) none 0
      (max (valor_inicial_estimado d m * 3) (d.rendimento_desejado * 100)) 50 := rfl

/-- One-step unfolding of the bisection loop. -/
lemma bisectLoop_succ (d : DadosReverso) (m : ModalidadeInvestimento)
    (melhor : ℚ) (menor : Option ℚ) (vmin vmax : ℚ) (fuel : ℕ) :
    bisectLoop d m melhor menor vmin vmax (fuel + 1) =
      (if |simular_rendimento_mensal ((vmin + vmax) / 2) d m -
            d.rendimento_desejado| < 1 ∨ |vmax - vmin| < 1 then
        bisectUpd melhor menor ((vmin + vmax) / 2)
          |simular_rendimento_mensal ((vmin + vmax) / 2) d m - d.rendimento_desejado|
      else if simular_rendimento_mensal ((vmin + vmax) / 2) d m <
          d.rendimento_desejado then
        bisectLoop d m
          (bisectUpd melhor menor ((vmin + vmax) / 2)
            |simular_rendimento_mensal ((vmin + vmax) / 2) d m -
              d.rendimento_desejado|).1
          (bisectUpd melhor menor ((vmin + vmax) / 2)
            |simular_rendimento_mensal ((vmin + vmax) / 2) d m -
              d.rendimento_desejado|).2
          ((vmin + vmax) / 2) vmax fuel
      else
        bisectLoop d m
          (bisectUpd melhor menor ((vmin + vmax) / 2)
            |simular_rendimento_mensal ((vmin + vmax) / 2) d m -
              d.rendimento_desejado|).1
          (bisectUpd melhor menor ((vmin + vmax) / 2)
            |simular_rendimento_mensal ((vmin + vmax) / 2) d m -
              d.rendimento_desejado|).2
          vmin ((vmin + vmax) / 2) fuel) := rfl

/-- The pair update always records a best error. -/
lemma bisectUpd_isSome (melhor : ℚ) (menor : Option ℚ) (vt dif : ℚ) :
    (bisectUpd melhor menor vt dif).2.isSome := by
  rcases menor with _ | md
  · simp [bisectUpd]
  · simp only [bisectUpd]
    split_ifs <;> simp

/-- After at least one iteration (or from a recorded state) the bisection
loop has a recorded best error. -/
lemma bisectLoop_isSome (d : DadosReverso) (m : ModalidadeInvestimento) :
    ∀ (fuel : ℕ) (melhor : ℚ) (menor : Option ℚ) (vmin vmax : ℚ),
      (menor.isSome ∨ 1 ≤ fuel) →
      (bisectLoop d m melhor menor vmin vmax fuel).2.isSome := by
  intro fuel
  induction fuel with
  | zero =>
      intro melhor menor vmin vmax h
      rcases h with h | h
      · simpa [bisectLoop] using h
      · omega
  | succ fuel ih =>
      intro melhor menor vmin vmax _
      rw [bisectLoop_succ]
      split
      · exact bisectUpd_isSome _ _ _ _
      · split
        · exact ih _ _ _ _ (Or.inl (bisectUpd_isSome _ _ _ _))
        · exact ih _ _ _ _ (Or.inl (bisectUpd_isSome _ _ _ _))

/-- The pair update preserves the best-error invariant when the recorded
difference is the probe error at the tested value. -/
lemma bisectUpd_menorInv (d : DadosReverso) (m : ModalidadeInvestimento)
    (melhor : ℚ) (menor : Option ℚ) (vt : ℚ)
    (h : menorInv d m (melhor, menor)) :
    menorInv d m (bisectUpd melhor menor vt
      |simular_rendimento_mensal vt d m - d.rendimento_desejado|) := by
  rcases menor with _ | md
  · intro md' hmd'
    simp only [bisectUpd] at hmd' ⊢
    cases hmd'
    rfl
  · intro md' hmd'
    simp only [bisectUpd] at hmd' ⊢
    split_ifs at hmd' with hlt
    · cases hmd'
      split_ifs
      rfl
    · split_ifs
      exact h md' hmd'

/-- The bisection loop preserves the best-error invariant. -/
lemma bisectLoop_menorInv (d : DadosReverso) (m : ModalidadeInvestimento) :
    ∀ (fuel : ℕ) (melhor : ℚ) (menor : Option ℚ) (vmin vmax : ℚ),
      menorInv d m (melhor, menor) →
      menorInv d m (bisectLoop d m melhor menor vmin vmax fuel) := by
  intro fuel
  induction fuel with
  | zero => intro melhor menor vmin vmax h; simpa [bisectLoop] using h
  | succ fuel ih =>
      intro melhor menor vmin vmax h
      rw [bisectLoop_succ]
      split
      · exact bisectUpd_menorInv d m melhor menor _ h
      · split
        · exact ih _ _ _ _ (bisectUpd_menorInv d m melhor menor _ h)
        · exact ih _ _ _ _ (bisectUpd_menorInv d m melhor menor _ h)

/-- The final bisection state always has a recorded best error, and it is
the probe error at the recorded best candidate. -/
lemma bisectResult_inv (d : DadosReverso) (m : ModalidadeInvestimento) :
    (bisectResult d m).2.isSome ∧ menorInv d m (bisectResult d m) := by
  rw [bisectResult_eq]
  constructor
  · exact bisectLoop_isSome d m 50 _ none 0 _ (Or.inr (by norm_num))
  · refine bisectLoop_menorInv d m 50 _ none 0 _ ?_
    intro md hmd
    simp at hmd

/-- A positive periodic rate gives a positive net rate: the tax-discount
factor lies in (0, 1]. -/
lemma taxa_liquida_pos (d : DadosReverso) (m : ModalidadeInvestimento)
    (ht : 0 < d.taxa_mensal) : 0 < taxa_liquida d m := by
  have hfat : 0 < fator_ir d m := by
    unfold fator_ir
    split
    · have h1 : calcular_ir 1 ((d.prazo_meses : ℤ) * 30) =
          aliquotaIR ((d.prazo_meses : ℤ) * 30) := by
        rw [calcular_ir_eq, if_neg (by norm_num), one_mul]
      obtain ⟨-, hhi⟩ := aliquotaIR_bounds ((d.prazo_meses : ℤ) * 30)
      rw [h1]
      nlinarith
    · norm_num
  exact mul_pos ht hfat

/-- Evaluation of the reverse solver once the guard passed and the best
error is known. -/
lemma calcular_valor_necessario_some (d : DadosReverso)
    (m : ModalidadeInvestimento) (md : ℚ) (htl : 0 < taxa_liquida d m)
    (hmd : (bisectResult d m).2 = some md) :
    calcular_valor_necessario d m =
      if md > d.rendimento_desejado * 0.1 then .error errInfeasible
      else .ok
        { valor_inicial_necessario := (bisectResult d m).1,
          rendimento_mensal_previsto :=
            simular_rendimento_mensal (bisectResult d m).1 d m,
          valor_total_investido :=
            (bisectResult d m).1 + d.aporte_mensal * (d.prazo_meses : ℚ),
          diferenca_rendimento := md } := by
  unfold calcular_valor_necessario
  rw [if_neg (not_le.2 htl), hmd]

/-- C6: with a positive periodic rate the bisection search always records a
best error, and the reverse solver raises an error exactly when that best
error exceeds 10% of the desired monthly yield (returning a result record
otherwise). -/
theorem infeasible_iff_error (d : DadosReverso) (m : ModalidadeInvestimento)
    (ht : 0 < d.taxa_mensal) :
    (bisectResult d m).2.isSome = true ∧
    (isErr (calcular_valor_necessario d m) = true ↔
      d.rendimento_desejado * 0.1 < (bisectResult d m).2.getD 0) := by
  obtain ⟨hsome, -⟩ := bisectResult_inv d m
  obtain ⟨md, hmd⟩ := Option.isSome_iff_exists.1 hsome
  have hcalc := calcular_valor_necessario_some d m md (taxa_liquida_pos d m ht) hmd
  refine ⟨hsome, ?_⟩
  rw [hcalc, hmd]
  by_cases hcmp : md > d.rendimento_desejado * 0.1
  · rw [if_pos hcmp]
    simpa [isErr] using hcmp
  · rw [if_neg hcmp]
    simpa [isErr] using hcmp

/-- Witness for `infeasible_iff_error` on `dadosReversoTeste`, where the
solver succeeds. -/
theorem infeasible_iff_error_witness :
    (0 : ℚ) < dadosReversoTeste.taxa_mensal ∧
    ((bisectResult dadosReversoTeste modalidadePoupanca).2.isSome = true ∧
      (isErr (calcular_valor_necessario dadosReversoTeste modalidadePoupanca) = true ↔
        dadosReversoTeste.rendimento_desejado * 0.1 <
          (bisectResult dadosReversoTeste modalidadePoupanca).2.getD 0)) :=
  ⟨by decide, infeasible_iff_error dadosReversoTeste modalidadePoupanca (by decide)⟩

/-- C7: whenever the reverse solver succeeds, the returned record is built
from the best bisection candidate: the required capital is that
candidate, the predicted yield is the probe at it, the total invested
capital adds the contributions over the horizon, and the convergence error
is the recorded minimum error, which equals the absolute difference between
the probe at the best candidate and the desired yield. -/
theorem solved_result_composition (d : DadosReverso)
    (m : ModalidadeInvestimento) (r : ResultadoReverso)
    (h : okVal (calcular_valor_necessario d m) = some r) :
    r.valor_inicial_necessario = (bisectResult d m).1 ∧
    r.rendimento_mensal_previsto =
      simular_rendimento_mensal (bisectResult d m).1 d m ∧
    r.valor_total_investido =
      (bisectResult d m).1 + d.aporte_mensal * (d.prazo_meses : ℚ) ∧
    (bisectResult d m).2 = some r.diferenca_rendimento ∧
    r.diferenca_rendimento =
      |simular_rendimento_mensal (bisectResult d m).1 d m -
        d.rendimento_desejado| := by
  obtain ⟨hsome, hinv⟩ := bisectResult_inv d m
  by_cases hg : taxa_liquida d m ≤ 0
  · unfold calcular_valor_necessario at h
    rw [if_pos hg] at h
    simp [okVal] at h
  · obtain ⟨md, hmd⟩ := Option.isSome_iff_exists.1 hsome
    have hcalc := calcular_valor_necessario_some d m md (not_le.1 hg) hmd
    rw [hcalc] at h
    by_cases hcmp : md > d.rendimento_desejado * 0.1
    · rw [if_pos hcmp] at h
      simp [okVal] at h
    · rw [if_neg hcmp] at h
      simp only [okVal, Option.some.injEq] at h
      subst h
      exact ⟨rfl, rfl, rfl, hmd, hinv md hmd⟩

/-- Witness for `solved_result_composition` on `dadosReversoTeste` and the
record the solver actually returns there. -/
theorem solved_result_composition_witness :
    okVal (calcular_valor_necessario dadosReversoTeste modalidadePoupanca) =
      some resultadoTeste ∧
    (resultadoTeste.valor_inicial_necessario =
        (bisectResult dadosReversoTeste modalidadePoupanca).1 ∧
      resultadoTeste.rendimento_mensal_previsto =
        simular_rendimento_mensal
          (bisectResult dadosReversoTeste modalidadePoupanca).1
          dadosReversoTeste modalidadePoupanca ∧
      resultadoTeste.valor_total_investido =
        (bisectResult dadosReversoTeste modalidadePoupanca).1 +
          dadosReversoTeste.aporte_mensal *
            (dadosReversoTeste.prazo_meses : ℚ) ∧
      (bisectResult dadosReversoTeste modalidadePoupanca).2 =
        some resultadoTeste.diferenca_rendimento ∧
      resultadoTeste.diferenca_rendimento =
        |simular_rendimento_mensal
            (bisectResult dadosReversoTeste modalidadePoupanca).1
            dadosReversoTeste modalidadePoupanca -
          dadosReversoTeste.rendimento_desejado|) :=
  ⟨by decide,
    solved_result_composition dadosReversoTeste modalidadePoupanca
      resultadoTeste (by decide)⟩

/-- One-step unfolding of the instrumented bisection loop. -/
lemma bisectLoopCount_succ (d : DadosReverso) (m : ModalidadeInvestimento)
    (melhor : ℚ) (menor : Option ℚ) (vmin vmax : ℚ) (fuel : ℕ) :
    bisectLoopCount d m melhor menor vmin vmax (fuel + 1) =
      (if |simular_rendimento_mensal ((vmin + vmax) / 2) d m -
            d.rendimento_desejado| < 1 ∨ |vmax - vmin| < 1 then
        (bisectUpd melhor menor ((vmin + vmax) / 2)
          |simular_rendimento_mensal ((vmin + vmax) / 2) d m -
            d.rendimento_desejado|, 1)
      else if simular_rendimento_mensal ((vmin + vmax) / 2) d m <
          d.rendimento_desejado then
        ((bisectLoopCount d m
            (bisectUpd melhor menor ((vmin + vmax) / 2)
              |simular_rendimento_mensal ((vmin + vmax) / 2) d m -
                d.rendimento_desejado|).1
            (bisectUpd melhor menor ((vmin + vmax) / 2)
              |simular_rendimento_mensal ((vmin + vmax) / 2) d m -
                d.rendimento_desejado|).2
            ((vmin + vmax) / 2) vmax fuel).1,
          (bisectLoopCount d m
            (bisectUpd melhor menor ((vmin + vmax) / 2)
              |simular_rendimento_mensal ((vmin + vmax) / 2) d m -
                d.rendimento_desejado|).1
            (bisectUpd melhor menor ((vmin + vmax) / 2)
              |simular_rendimento_mensal ((vmin + vmax) / 2) d m -
                d.rendimento_desejado|).2
            ((vmin + vmax) / 2) vmax fuel).2 + 1)
      else
        ((bisectLoopCount d m
            (bisectUpd melhor menor ((vmin + vmax) / 2)
              |simular_rendimento_mensal ((vmin + vmax) / 2) d m -
                d.rendimento_desejado|).1
            (bisectUpd melhor menor ((vmin + vmax) / 2)
              |simular_rendimento_mensal ((vmin + vmax) / 2) d m -
                d.rendimento_desejado|).2
            vmin ((vmin + vmax) / 2) fuel).1,
          (bisectLoopCount d m
            (bisectUpd melhor menor ((vmin + vmax) / 2)
              |simular_rendimento_mensal ((vmin + vmax) / 2) d m -
                d.rendimento_desejado|).1
            (bisectUpd melhor menor ((vmin + vmax) / 2)
              |simular_rendimento_mensal ((vmin + vmax) / 2) d m -
                d.rendimento_desejado|).2
            vmin ((vmin + vmax) / 2) fuel).2 + 1)) := rfl

/-- The instrumented loop performs at most `fuel` probe evaluations. -/
lemma bisectLoopCount_le (d : DadosReverso) (m : ModalidadeInvestimento) :
    ∀ (fuel : ℕ) (melhor : ℚ) (menor : Option ℚ) (vmin vmax : ℚ),
      (bisectLoopCount d m melhor menor vmin vmax fuel).2 ≤ fuel := by
  intro fuel
  induction fuel with
  | zero => intro melhor menor vmin vmax; simp [bisectLoopCount]
  | succ fuel ih =>
      intro melhor menor vmin vmax
      rw [bisectLoopCount_succ]
      split
      · simp
      · split
        · simpa using Nat.succ_le_succ (ih _ _ _ _)
        · simpa using Nat.succ_le_succ (ih _ _ _ _)

/-- The instrumented loop computes the same search state as `bisectLoop`. -/
lemma bisectLoopCount_fst (d : DadosReverso) (m : ModalidadeInvestimento) :
    ∀ (fuel : ℕ) (melhor : ℚ) (menor : Option ℚ) (vmin vmax : ℚ),
      (bisectLoopCount d m melhor menor vmin vmax fuel).1 =
        bisectLoop d m melhor menor vmin vmax fuel := by
  intro fuel
  induction fuel with
  | zero => intro melhor menor vmin vmax; simp [bisectLoopCount, bisectLoop]
  | succ fuel ih =>
      intro melhor menor vmin vmax
      rw [bisectLoopCount_succ, bisectLoop_succ]
      split
      · rfl
      · split
        · exact ih _ _ _ _
        · exact ih _ _ _ _

/-- Evaluation form of `probesUsed`. -/
lemma probesUsed_eq (d : DadosReverso) (m : ModalidadeInvestimento) :
    probesUsed d m =
      if taxa_liquida d m ≤ 0 then 0
      else
        (bisectLoopCount d m (valor_inicial_estimado d m) none 0
            (max (valor_inicial_estimado d m * 3) (d.rendimento_desejado * 100)) 50).2 +
          match (bisectLoopCount d m (valor_inicial_estimado d m) none 0
              (max (valor_inicial_estimado d m * 3)
                (d.rendimento_desejado * 100)) 50).1.2 with
          | none => 0
          | some menor_diferenca =>
              if menor_diferenca > d.rendimento_desejado * 0.1 then 0 else 1 := rfl

/-- C5 (amended): the forward simulator always returns at most 600 records,
and one call of the reverse solver evaluates the periodic-yield probe at
most 51 times: at most 50 inside the bisection loop — whose search state
the instrumented count provably reproduces — plus one more evaluation while
building the success record. -/
theorem bounded_termination_amended :
    (∀ (d : Dados) (m : ModalidadeInvestimento),
        (simular_investimento d m).length ≤ 600) ∧
    (∀ (d : DadosReverso) (m : ModalidadeInvestimento),
        (bisectLoopCount d m (valor_inicial_estimado d m) none 0
            (max (valor_inicial_estimado d m * 3)
              (d.rendimento_desejado * 100)) 50).1 = bisectResult d m ∧
        probesUsed d m ≤ 51) := by
  constructor
  · intro d m
    exact simLoop_length_le d m 600 d.valor_inicial 0
  · intro d m
    refine ⟨by rw [bisectResult_eq]; exact bisectLoopCount_fst d m 50 _ _ _ _, ?_⟩
    rw [probesUsed_eq]
    split
    · omega
    · have hle := bisectLoopCount_le d m 50 (valor_inicial_estimado d m) none 0
        (max (valor_inicial_estimado d m * 3) (d.rendimento_desejado * 100))
      have hmatch : (match (bisectLoopCount d m (valor_inicial_estimado d m) none 0
          (max (valor_inicial_estimado d m * 3)
            (d.rendimento_desejado * 100)) 50).1.2 with
          | none => 0
          | some menor_diferenca =>
              if menor_diferenca > d.rendimento_desejado * 0.1 then 0 else 1) ≤ 1 := by
        split
        · norm_num
        · split_ifs <;> norm_num
      omega

set_option maxRecDepth 40000 in
/-- Counterexample to C5 as stated: on `dadosContraexemplo` the bisection
loop runs all 50 iterations and the solver still succeeds, so the probe is
evaluated 51 times in total, exceeding the claimed budget of 50. -/
theorem probe_budget_counterexample :
    probesUsed dadosContraexemplo modalidadePoupanca = 51 ∧
    isErr (calcular_valor_necessario dadosContraexemplo modalidadePoupanca) = false :=
  ⟨by decide, by decide⟩
